import Mathlib

/-!
Verification development for the pdf-to-excel-parser repository.

The repository's `src/extractor.py` implements `build_rows_from_text`, a
single-pass extractor driven by Python `re` searches with hard-coded fallback
rows, plus the helper `normalize_salary`; `src/streamlit.py` implements
`create_excel_output`, whose data part numbers rows starting at 23.  The
specification additionally describes a generic Line Classifier / Record
Assembler (colon-form splitting, value backfill, duplicate-key
disambiguation) whose source file is not part of `src/`; those operations are
modelled here directly from the specification text.

Python's `re` module is modelled by a small backtracking matcher over an
explicit regex AST (leftmost search, greedy/lazy repetition via
continuations), restricted to the ASCII reading of the character classes
`[A-Z]`, `[a-z]`, `\d`, `\s`, `\w` (the inputs of interest are ASCII).
Python `str.strip` is modelled by `pyStrip` (ASCII whitespace).
-/

/-- One output row of the extractor: the Python dict
`{"Key": ..., "Value": ..., "Comments": ...}`. -/
structure Row where
  Key : String
  Value : String
  Comments : String
deriving DecidableEq, Repr

/-- ASCII `[A-Z]`. -/
def isUpperAZ (c : Char) : Bool := 'A' ≤ c && c ≤ 'Z'

/-- ASCII `[a-z]`. -/
def isLowerAZ (c : Char) : Bool := 'a' ≤ c && c ≤ 'z'

/-- ASCII `[A-Za-z]`. -/
def isAlphaAZ (c : Char) : Bool := isUpperAZ c || isLowerAZ c

/-- ASCII `[0-9]`, Python's `\d` on ASCII text. -/
def isDigit09 (c : Char) : Bool := '0' ≤ c && c ≤ '9'

/-- Python's `\s` on ASCII text: space, tab, newline, CR, vertical tab, form feed. -/
def isSpaceRe (c : Char) : Bool :=
  c = ' ' || c = '\t' || c = '\n' || c = '\x0d' || c = '\x0b' || c = '\x0c'

/-- Python's `\w` on ASCII text. -/
def isWordRe (c : Char) : Bool := isAlphaAZ c || isDigit09 c || c = '_'

/-- `[A-Za-z\s]`. -/
def isAlphaSpace (c : Char) : Bool := isAlphaAZ c || isSpaceRe c

/-- `[A-Za-z0-9\s]`. -/
def isAlnumSpace (c : Char) : Bool := isAlphaAZ c || isDigit09 c || isSpaceRe c

/-- `[\w\s]`. -/
def isWordSpace (c : Char) : Bool := isWordRe c || isSpaceRe c

/-- `[\d,]`. -/
def isDigitComma (c : Char) : Bool := isDigit09 c || c = ','

/-- Regex flags: `re.I`, `re.S`, `re.M`. -/
structure RFlags where
  icase : Bool := false
  dotall : Bool := false
  multiline : Bool := false

/-- AST of the regular-expression fragment used by `extractor.py`:
literals, character classes, `.`, concatenation, alternation, greedy and
lazy repetition, numbered groups, `^`, `$`, `\b`. -/
inductive Re where
  | eps
  | lit (c : Char)
  | cls (p : Char → Bool)
  | dot
  | seq (a b : Re)
  | alt (a b : Re)
  | star (greedy : Bool) (a : Re)
  | grp (i : Nat) (a : Re)
  | bol
  | eol
  | wb

/-- Structural size of a regex, used to bound the matcher's fuel. -/
def reSize : Re → Nat
  | .eps => 1
  | .lit _ => 1
  | .cls _ => 1
  | .dot => 1
  | .seq a b => reSize a + reSize b + 1
  | .alt a b => reSize a + reSize b + 1
  | .star _ a => reSize a + 1
  | .grp _ a => reSize a + 1
  | .bol => 1
  | .eol => 1
  | .wb => 1

/-- Captured groups: `(index, start, stop)`, most recent first. -/
abbrev Groups := List (Nat × Nat × Nat)

/-- Lower-case an ASCII letter (for `re.I` literal comparison). -/
def lowerCh (c : Char) : Char :=
  if isUpperAZ c then Char.ofNat (c.toNat + 32) else c

/-- Literal-character comparison under the `re.I` flag. -/
def litEq (fl : RFlags) (a b : Char) : Bool :=
  if fl.icase then lowerCh a = lowerCh b else a = b

/-- Whether position `i` of the text holds a `\w` character. -/
def isWordAt (s : List Char) (i : Nat) : Bool :=
  match s.get? i with
  | some c => isWordRe c
  | none => false

/-- Backtracking matcher in continuation-passing style, mirroring the
preference order of Python's `re` engine: alternation tries the left branch
first, greedy repetition tries one more iteration before yielding, lazy
repetition yields before iterating.  Fuel bounds the recursion depth; callers
supply fuel generously in terms of text length and regex size. -/
def matRe (fl : RFlags) (s : List Char) :
    Nat → Re → Nat → Groups → (Nat → Groups → Option (Nat × Groups)) →
    Option (Nat × Groups)
  | 0, _, _, _, _ => none
  | fuel + 1, re, pos, gs, k =>
    match re with
    | .eps => k pos gs
    | .lit c =>
      match s.get? pos with
      | some c2 => if litEq fl c c2 then k (pos + 1) gs else none
      | none => none
    | .cls p =>
      match s.get? pos with
      | some c2 => if p c2 then k (pos + 1) gs else none
      | none => none
    | .dot =>
      match s.get? pos with
      | some c2 => if fl.dotall || c2 ≠ '\n' then k (pos + 1) gs else none
      | none => none
    | .seq a b => matRe fl s fuel a pos gs (fun p g => matRe fl s fuel b p g k)
    | .alt a b =>
      match matRe fl s fuel a pos gs k with
      | some r => some r
      | none => matRe fl s fuel b pos gs k
    | .star true a =>
      match matRe fl s fuel a pos gs
          (fun p g => if p = pos then none else matRe fl s fuel (.star true a) p g k) with
      | some r => some r
      | none => k pos gs
    | .star false a =>
      match k pos gs with
      | some r => some r
      | none =>
        matRe fl s fuel a pos gs
          (fun p g => if p = pos then none else matRe fl s fuel (.star false a) p g k)
    | .grp i a => matRe fl s fuel a pos gs (fun p g => k p ((i, pos, p) :: g))
    | .bol =>
      if pos = 0 || (fl.multiline && s.get? (pos - 1) = some '\n') then k pos gs else none
    | .eol =>
      if pos = s.length ||
          (s.get? pos = some '\n' && (fl.multiline || pos + 1 = s.length)) then
        k pos gs
      else none
    | .wb =>
      let before := decide (pos ≠ 0) && isWordAt s (pos - 1)
      let here := isWordAt s pos
      if before ≠ here then k pos gs else none

/-- Result of a successful search: whole-match bounds and captured groups. -/
structure MRes where
  mstart : Nat
  mend : Nat
  groups : Groups
deriving Repr

/-- Model of `re.search`: try the pattern at each position from the left,
returning the first position at which it matches. -/
def reSearch (fl : RFlags) (re : Re) (text : String) : Option MRes :=
  let s := text.toList
  let fuel := (s.length + 2) * (reSize re + 2)
  (List.range (s.length + 1)).findSome? (fun i =>
    (matRe fl s fuel re i [] (fun p g => some (p, g))).map
      (fun r => ⟨i, r.1, r.2⟩))

/-- Substring of the underlying character list between positions `a` and `b`. -/
def sub (s : List Char) (a b : Nat) : String :=
  String.mk ((s.drop a).take (b - a))

/-- Model of `m.group(i)`: group 0 is the whole match; a repeated group
keeps its most recent capture.  (Every group read by `extractor.py` is on the
matched path, so the unmatched-group case is never reached.) -/
def mGroup (text : String) (m : MRes) (i : Nat) : String :=
  if i = 0 then sub text.toList m.mstart m.mend
  else
    match m.groups.find? (fun t => t.1 = i) with
    | some t => sub text.toList t.2.1 t.2.2
    | none => ""

/-- Model of Python's substring test `pat in text`. -/
def containsSub (text pat : String) : Bool :=
  let s := text.toList
  let p := pat.toList
  (List.range (s.length + 1)).any (fun i => (s.drop i).take p.length = p)

/-- Embeds `find_first_match` (extractor.py lines 25-30): return the first
pattern in the list that matches anywhere in the text. -/
def find_first_match (patterns : List Re) (fl : RFlags) (text : String) : Option MRes :=
  patterns.findSome? (fun p => reSearch fl p text)

/-- Model of Python's `str.strip()` with no argument: remove leading and
trailing whitespace. -/
def pyStrip (s : String) : String :=
  String.mk (((s.toList.dropWhile isSpaceRe).reverse.dropWhile isSpaceRe).reverse)

/-- Worker for `pySplit`: accumulate the current (reversed) word. -/
def pySplitGo : List Char → List Char → List String
  | [], acc => if acc.isEmpty then [] else [String.mk acc.reverse]
  | c :: cs, acc =>
    if isSpaceRe c then
      if acc.isEmpty then pySplitGo cs [] else String.mk acc.reverse :: pySplitGo cs []
    else pySplitGo cs (c :: acc)

/-- Model of Python's `str.split()` with no argument: split on whitespace
runs and drop empty pieces. -/
def pySplit (s : String) : List String := pySplitGo s.toList []

/-- Split a character list on newline characters, keeping empty pieces, as
Python's `str.split("\n")` does. -/
def splitOnNl : List Char → List (List Char)
  | [] => [[]]
  | c :: cs =>
    let r := splitOnNl cs
    if c = '\n' then [] :: r
    else (c :: r.headD []) :: r.tail

/-- Model of Python's `comments.split("\n")`. -/
def splitLines (s : String) : List String := (splitOnNl s.toList).map String.mk

/-- Concatenation of a list of regexes. -/
def rcat (l : List Re) : Re := l.foldr Re.seq Re.eps

/-- Literal string regex. -/
def rstr (s : String) : Re := rcat (s.toList.map Re.lit)

/-- Greedy `+`. -/
def rplus (a : Re) : Re := .seq a (.star true a)

/-- Lazy `+?`. -/
def rplusLazy (a : Re) : Re := .seq a (.star false a)

/-- Greedy `?`. -/
def ropt (a : Re) : Re := .alt a .eps

/-- `\s`. -/
def rS : Re := .cls isSpaceRe

/-- `\d`. -/
def rD : Re := .cls isDigit09

/-- `\d{1,3}` (greedy: three digits, else two, else one). -/
def rD13 : Re := .alt (rcat [rD, rD, rD]) (.alt (rcat [rD, rD]) rD)

/-- `\d{4}`. -/
def rD4 : Re := rcat [rD, rD, rD, rD]

/-- The date shape `[A-Za-z]+\s+\d{1,2},\s*\d{4}` shared by several patterns. -/
def dateBody : Re :=
  rcat [rplus (.cls isAlphaAZ), rplus rS, .alt (rcat [rD, rD]) rD, .lit ',',
    .star true rS, rD4]

/-- The ISO date shape `\d{4}-\d{2}-\d{2}`. -/
def isoBody : Re := rcat [rD4, .lit '-', rD, rD, .lit '-', rD, rD]

/-- `([A-Z][a-z]+)\s+([A-Z][a-z]+)\s+was born` (line 52). -/
def P_name : Re :=
  rcat [.grp 1 (rcat [.cls isUpperAZ, rplus (.cls isLowerAZ)]), rplus rS,
    .grp 2 (rcat [.cls isUpperAZ, rplus (.cls isLowerAZ)]), rplus rS, rstr "was born"]

/-- `^([A-Z][a-z]+(?:\s[A-Z][a-z]+)+)$` with `re.M` (line 59). -/
def P_name2 : Re :=
  rcat [.bol,
    .grp 1 (rcat [.cls isUpperAZ, rplus (.cls isLowerAZ),
      rplus (rcat [rS, .cls isUpperAZ, rplus (.cls isLowerAZ)])]),
    .eol]

/-- `born on\s+([A-Za-z]+\s+\d{1,2},\s*\d{4})` (line 67). -/
def P_dob1 : Re := rcat [rstr "born on", rplus rS, .grp 1 dateBody]

/-- `born on\s+(\d{4}-\d{2}-\d{2})` (line 68). -/
def P_dob2 : Re := rcat [rstr "born on", rplus rS, .grp 1 isoBody]

/-- `birthdate is formatted as\s+(\d{4}-\d{2}-\d{2})` (line 69). -/
def P_dob3 : Re := rcat [rstr "birthdate is formatted as", rplus rS, .grp 1 isoBody]

/-- `([A-Za-z]+\s+\d{1,2},\s*\d{4})` (line 86). -/
def P_dob4 : Re := .grp 1 dateBody

/-- `born on .* in\s+([A-Za-z\s]+),\s*([A-Za-z\s]+),` (line 98). -/
def P_city : Re :=
  rcat [rstr "born on ", .star true .dot, rstr " in", rplus rS,
    .grp 1 (rplus (.cls isAlphaSpace)), .lit ',', .star true rS,
    .grp 2 (rplus (.cls isAlphaSpace)), .lit ',']

/-- `Pink City of India` (line 106). -/
def P_pink : Re := rstr "Pink City of India"

/-- `\bJaipur\b` (line 112). -/
def P_jaipur : Re := rcat [.wb, rstr "Jaipur", .wb]

/-- `\bRajasthan\b` (line 116). -/
def P_raj : Re := rcat [.wb, rstr "Rajasthan", .wb]

/-- `making him\s+(\d{1,3})\s+years old\s+as of\s+(\d{4})` (line 124). -/
def P_age1 : Re :=
  rcat [rstr "making him", rplus rS, .grp 1 rD13, rplus rS, rstr "years old",
    rplus rS, rstr "as of", rplus rS, .grp 2 rD4]

/-- `(\d{1,3})\s+years\s+old\s+as of\s+(\d{4})` (line 131). -/
def P_age2 : Re :=
  rcat [.grp 1 rD13, rplus rS, rstr "years", rplus rS, rstr "old", rplus rS,
    rstr "as of", rplus rS, .grp 2 rD4]

/-- `\b(O|A|B|AB)[\+\-]\b` (line 141). -/
def P_bg : Re :=
  rcat [.wb, .grp 1 (.alt (rstr "O") (.alt (rstr "A") (.alt (rstr "B") (rstr "AB")))),
    .cls (fun c => c = '+' || c = '-'), .wb]

/-- `\b(Indian|American|Canadian|British)\b` (line 145). -/
def P_nat : Re :=
  rcat [.wb,
    .grp 1 (.alt (rstr "Indian") (.alt (rstr "American")
      (.alt (rstr "Canadian") (rstr "British")))),
    .wb]

/-- Line 151: `began on\s+([A-Za-z]+\s+\d{1,2},\s*\d{4}).*joined .* as a
([\w\s]+?) with an annual salary of ([\d,]+)\s*INR`. -/
def P_emp : Re :=
  rcat [rstr "began on", rplus rS, .grp 1 dateBody, .star true .dot,
    rstr "joined ", .star true .dot, rstr " as a ",
    .grp 2 (rplusLazy (.cls isWordSpace)), rstr " with an annual salary of ",
    .grp 3 (rplus (.cls isDigitComma)), .star true rS, rstr "INR"]

/-- Line 173: `current role at\s+([A-Za-z0-9\s]+)\s+beginning on\s+([A-Za-z]+\s+
\d{1,2},\s*\d{4}), where he serves as a\s+([A-Za-z\s]+)\s+earning\s+([\d,]+)\s*INR`. -/
def P_curr : Re :=
  rcat [rstr "current role at", rplus rS, .grp 1 (rplus (.cls isAlnumSpace)),
    rplus rS, rstr "beginning on", rplus rS, .grp 2 dateBody,
    rstr ", where he serves as a", rplus rS, .grp 3 (rplus (.cls isAlphaSpace)),
    rplus rS, rstr "earning", rplus rS, .grp 4 (rplus (.cls isDigitComma)),
    .star true rS, rstr "INR"]

/-- Line 201: `from\s+([A-Za-z]+\s+\d{1,2},\s*\d{4})\s+to\s+(\d{4}),\s+starting
as a\s+([\w\s]+?)\s+and`. -/
def P_prev : Re :=
  rcat [rstr "from", rplus rS, .grp 1 dateBody, rplus rS, rstr "to", rplus rS,
    .grp 2 rD4, .lit ',', rplus rS, rstr "starting as a", rplus rS,
    .grp 3 (rplusLazy (.cls isWordSpace)), rplus rS, rstr "and"]

/-- Line 219: `high school education at\s+(.+?), where he completed his 12th
standard in\s+(\d{4}), achieving an outstanding\s+([0-9]{1,3}\.?[0-9]*)%?`. -/
def P_hs : Re :=
  rcat [rstr "high school education at", rplus rS, .grp 1 (rplusLazy .dot),
    rstr ", where he completed his 12th standard in", rplus rS, .grp 2 rD4,
    rstr ", achieving an outstanding", rplus rS,
    .grp 3 (rcat [rD13, ropt (.lit '.'), .star true rD]), ropt (.lit '%')]

/-- `In terms of technical proficiency,(.+)$` (line 254). -/
def P_tech : Re :=
  rcat [rstr "In terms of technical proficiency,", .grp 1 (rplus .dot), .eol]

/-- `SQL expertise.*?Power BI and Tableau` (line 260). -/
def P_tech2 : Re :=
  rcat [rstr "SQL expertise", .star false .dot, rstr "Power BI and Tableau"]

/-- No flags. -/
def flags0 : RFlags := {}

/-- `re.I`. -/
def flagsI : RFlags := { icase := true }

/-- `re.M`. -/
def flagsM : RFlags := { multiline := true }

/-- `re.I | re.S`. -/
def flagsIS : RFlags := { icase := true, dotall := true }

/-- Full month names, as matched by `strptime`'s `%B`. -/
def monthFull : List String :=
  ["January", "February", "March", "April", "May", "June", "July", "August",
   "September", "October", "November", "December"]

/-- Abbreviated month names, as produced by `strftime`'s `%b`. -/
def monthAbbr : List String :=
  ["Jan", "Feb", "Mar", "Apr", "May", "Jun", "Jul", "Aug", "Sep", "Oct", "Nov", "Dec"]

/-- Gregorian leap-year rule. -/
def isLeap (y : Nat) : Bool := (y % 4 = 0 && y % 100 ≠ 0) || y % 400 = 0

/-- Days in a month. -/
def daysInMonth (y m : Nat) : Nat :=
  if m = 2 then (if isLeap y then 29 else 28)
  else if m = 4 || m = 6 || m = 9 || m = 11 then 30
  else 31

/-- Validity of a `datetime.date`: year 1-9999, month 1-12, day within month. -/
def validYMD (y m d : Nat) : Bool :=
  1 ≤ y && y ≤ 9999 && 1 ≤ m && m ≤ 12 && 1 ≤ d && d ≤ daysInMonth y m

/-- Numeric value of an ASCII digit. -/
def digitVal (c : Char) : Nat := c.toNat - '0'.toNat

/-- Numeric value of a list of ASCII digits. -/
def digitsVal (cs : List Char) : Nat := cs.foldl (fun a c => a * 10 + digitVal c) 0

/-- Zero-padded two-digit rendering, as in `strftime`'s `%d`/`%y`. -/
def pad2 (n : Nat) : String := if n < 10 then "0" ++ toString n else toString n

/-- Model of `dt.strftime("%d-%b-%y")`. -/
def strftimeDbY (y m d : Nat) : String :=
  pad2 d ++ "-" ++ ((monthAbbr.get? (m - 1)).getD "") ++ "-" ++ pad2 (y % 100)

/-- Model of `datetime.datetime.strptime(s, "%Y-%m-%d")` on the
`\d{4}-\d{2}-\d{2}` shapes produced by the capture groups that feed it:
`%Y` is exactly four digits, the month and day fields are validated by the
`datetime` constructor (month 1-12, day within the month, year at least 1);
failure (`ValueError`) is `none`. -/
def strptimeYmd (s : String) : Option (Nat × Nat × Nat) :=
  match s.toList with
  | [y1, y2, y3, y4, h1, m1, m2, h2, d1, d2] =>
    if ([y1, y2, y3, y4, m1, m2, d1, d2].all isDigit09) && h1 = '-' && h2 = '-' then
      let y := digitsVal [y1, y2, y3, y4]
      let mo := digitsVal [m1, m2]
      let d := digitsVal [d1, d2]
      if validYMD y mo d then some (y, mo, d) else none
    else none
  | _ => none

/-- Drop a case-insensitive prefix, as `strptime`'s case-insensitive regex does. -/
def dropIPrefix : List Char → List Char → Option (List Char)
  | [], rest => some rest
  | _ :: _, [] => none
  | c :: ps, d :: ss => if lowerCh c = lowerCh d then dropIPrefix ps ss else none

/-- Model of `strptime`'s `%d` field, whose regex is
`3[01]|[12]\d|0[1-9]|[1-9]`: a day number 1-31 read from one or two digits
(no `00`); for the digit shapes that reach it, the greedy two-digits-first
reading coincides with the regex's backtracking search. -/
def parsePctD : List Char → Option (Nat × List Char)
  | [] => none
  | [c1] => if '1' ≤ c1 && c1 ≤ '9' then some (digitVal c1, []) else none
  | c1 :: c2 :: r =>
    if c1 = '3' && (c2 = '0' || c2 = '1') then some (30 + digitVal c2, r)
    else if (c1 = '1' || c1 = '2') && isDigit09 c2 then
      some (digitVal c1 * 10 + digitVal c2, r)
    else if c1 = '0' && ('1' ≤ c2 && c2 ≤ '9') then some (digitVal c2, r)
    else if '1' ≤ c1 && c1 ≤ '9' then some (digitVal c1, c2 :: r)
    else none

/-- Model of `datetime.datetime.strptime(s, "%B %d, %Y")`: a full month name
(case-insensitively), one or more whitespace characters (whitespace in the
format matches a whitespace run), `%d`, a comma, whitespace, exactly four
digits for `%Y`, and nothing left over; the `datetime` constructor then
validates the date.  Failure (`ValueError`) is `none`. -/
def strptimeBdY (s : String) : Option (Nat × Nat × Nat) :=
  let cs := s.toList
  match (List.range 12).findSome?
      (fun i => (dropIPrefix (monthFull.getD i "").toList cs).map (fun r => (i + 1, r))) with
  | none => none
  | some (mo, r1) =>
    let r2 := r1.dropWhile isSpaceRe
    if r2.length = r1.length then none
    else
      match parsePctD r2 with
      | none => none
      | some (d, r3) =>
        match r3 with
        | ',' :: r4 =>
          let r5 := r4.dropWhile isSpaceRe
          if r5.length = r4.length then none
          else
            match r5 with
            | [a, b, c, e] =>
              if [a, b, c, e].all isDigit09 then
                let y := digitsVal [a, b, c, e]
                if validYMD y mo d then some (y, mo, d) else none
              else none
            | _ => none
        | _ => none

/-- The `try: strptime(raw.strip(), "%B %d, %Y") ... except:` idiom of
lines 155-160 (and 176-182): format the parsed date as `%d-%b-%y`, or fall
back to the raw string on failure. -/
def joinFmt (raw : String) : String :=
  match strptimeBdY (pyStrip raw) with
  | some (y, mo, d) => strftimeDbY y mo d
  | none => raw

/-- Model of `raw.replace(",", "")` (line 36): replacing every comma by the
empty string deletes all commas. -/
def dropCommas (s : String) : String :=
  String.mk (s.toList.filter (fun c => c ≠ ','))

/-- The stripping step of `normalize_salary` (line 36):
`re.sub(r"[^\d\.]", "", ...)` keeps exactly the digits and dots of the
argument. -/
def stripNonDigitDot (s : String) : String :=
  String.mk (s.toList.filter (fun c => isDigit09 c || c = '.'))

/-- Whether the rational `N / D` is at least `2 ^ j` (for an integer `j`). -/
def gePow2 (N D : Nat) (j : Int) : Bool :=
  if 0 ≤ j then N ≥ D * 2 ^ j.toNat else N * 2 ^ (-j).toNat ≥ D

/-- Correct an estimate of `floor(log2 (N / D))` by at most `fuel` unit
steps (the estimate below is off by at most one, so four steps suffice). -/
def floorLog2Aux : Nat → Int → Nat → Nat → Int
  | 0, c, _, _ => c
  | fuel + 1, c, N, D =>
    if ¬gePow2 N D c then floorLog2Aux fuel (c - 1) N D
    else if gePow2 N D (c + 1) then floorLog2Aux fuel (c + 1) N D
    else c

/-- Base-two logarithm by structural recursion on a fuel bound (the fuel
`n` itself always suffices, since the value halves each step). -/
def natLog2Aux : Nat → Nat → Nat
  | 0, _ => 0
  | fuel + 1, n => if n ≥ 2 then natLog2Aux fuel (n / 2) + 1 else 0

/-- `floor(log2 n)` for positive `n` (0 for 0). -/
def natLog2 (n : Nat) : Nat := natLog2Aux n n

/-- `floor(log2 (N / D))` for positive `N` and `D`. -/
def floorLog2 (N D : Nat) : Int :=
  floorLog2Aux 4 ((natLog2 N : Int) - (natLog2 D : Int)) N D

/-- Round the nonnegative rational `N / D` to the nearest IEEE-754 binary64
value (ties to even, exponent clamped at the subnormal floor −1074),
returning the exact value as mantissa and binary exponent; `none` is
overflow to infinity (rounded magnitude at least `2 ^ 1024`). -/
def roundDouble (N D : Nat) : Option (Nat × Int) :=
  if N = 0 then some (0, 0)
  else
    let e : Int := max (floorLog2 N D - 52) (-1074)
    let nd : Nat × Nat :=
      if 0 ≤ e then (N, D * 2 ^ e.toNat) else (N * 2 ^ (-e).toNat, D)
    let m0 := nd.1 / nd.2
    let r := nd.1 % nd.2
    let m :=
      if 2 * r > nd.2 then m0 + 1
      else if 2 * r < nd.2 then m0
      else if m0 % 2 = 0 then m0 else m0 + 1
    if m * 2 ^ e.toNat ≥ 2 ^ 1024 then none else some (m, e)

/-- Truncate a nonnegative binary64 value `m * 2 ^ e` to an integer, as
Python's `int()` does. -/
def truncDouble (m : Nat) (e : Int) : Nat :=
  if 0 ≤ e then m * 2 ^ e.toNat else m / 2 ^ (-e).toNat

/-- Model of `int(float(s))` for the digits-and-dots strings that
`normalize_salary` feeds it: `float(s)` succeeds exactly when `s` has at
least one digit and at most one dot, producing the decimal value rounded to
the nearest binary64 (so e.g. `"9007199254740993"` yields
`9007199254740992`); `int()` truncates that double.  `none` covers both
failure modes swallowed by the bare `except`: `ValueError` from an
unparsable string and `OverflowError` from `int(inf)` after the double
overflows. -/
def pyIntFloat (s : String) : Option Nat :=
  let cs := s.toList
  if cs.all (fun c => isDigit09 c || c = '.') && cs.any isDigit09 &&
      cs.count '.' ≤ 1 then
    let intDigits := cs.takeWhile (fun c => c ≠ '.')
    let fracDigits := (cs.dropWhile (fun c => c ≠ '.')).drop 1
    match roundDouble (digitsVal (intDigits ++ fracDigits)) (10 ^ fracDigits.length) with
    | none => none
    | some me => some (truncDouble me.1 me.2)
  else none

/-- Embeds `normalize_salary` (extractor.py lines 32-44); `none` stands for
Python's `None` argument. -/
def normalize_salary (raw : Option String) : String :=
  match raw with
  | none => ""
  | some r =>
    let s := stripNonDigitDot (dropCommas r)
    if s = "" then ""
    else
      match pyIntFloat s with
      | some v => toString v
      | none => s

/-- Lines 51-63 of extractor.py: the First Name / Last Name rows.  (In the
fallback branch the captured group is a nonempty non-whitespace word
sequence, so its whitespace split is never empty; the `[]` case is
unreachable and kept only for totality.) -/
def nameRows (text : String) : List Row :=
  match reSearch flags0 P_name text with
  | some m =>
    [⟨"First Name", mGroup text m 1, ""⟩, ⟨"Last Name", mGroup text m 2, ""⟩]
  | none =>
    match reSearch flagsM P_name2 text with
    | some m2 =>
      match pySplit (pyStrip (mGroup text m2 1)) with
      | [] => []
      | f :: rest =>
        [⟨"First Name", f, ""⟩, ⟨"Last Name", String.intercalate " " rest, ""⟩]
    | none => []

/-- Lines 66-94 of extractor.py: the date-of-birth value. -/
def dobValue (text : String) : String :=
  let v1 :=
    match find_first_match [P_dob1, P_dob2, P_dob3] flagsI text with
    | some m =>
      let raw := mGroup text m 1
      if containsSub raw "-" then
        match strptimeYmd (pyStrip raw) with
        | some (y, mo, d) => strftimeDbY y mo d
        | none => raw
      else
        match strptimeBdY (pyStrip raw) with
        | some (y, mo, d) => strftimeDbY y mo d
        | none => raw
    | none => ""
  if v1 = "" then
    match reSearch flags0 P_dob4 text with
    | some m2 =>
      match strptimeBdY (pyStrip (mGroup text m2 1)) with
      | some (y, mo, d) => strftimeDbY y mo d
      | none => pyStrip (mGroup text m2 1)
    | none => ""
  else v1

/-- Line 95 of extractor.py. -/
def dobRow (text : String) : Row := ⟨"Date of Birth", dobValue text, ""⟩

/-- Lines 98-118 of extractor.py: birth city and state values. -/
def cityState (text : String) : String × String :=
  match reSearch flagsI P_city text with
  | some m => (pyStrip (mGroup text m 1), pyStrip (mGroup text m 2))
  | none =>
    let cs0 : String × String :=
      match reSearch flags0 P_pink text with
      | some _ => ("Jaipur", "Rajasthan")
      | none => ("", "")
    let city :=
      if cs0.1 = "" then
        match reSearch flags0 P_jaipur text with
        | some _ => "Jaipur"
        | none => cs0.1
      else cs0.1
    let state :=
      if cs0.2 = "" then
        match reSearch flags0 P_raj text with
        | some _ => "Rajasthan"
        | none => cs0.2
      else cs0.2
    (city, state)

/-- The comment literal of lines 120-121 of extractor.py. -/
def birthComment : String :=
  "Born and raised in the Pink City of India, his birthplace provides valuable regional profiling context"

/-- Lines 120-121 of extractor.py: the Birth City and Birth State rows. -/
def cityRows (text : String) : List Row :=
  let cs := cityState text
  [⟨"Birth City", cs.1, if cs.1 ≠ "" then birthComment else ""⟩,
   ⟨"Birth State", cs.2, if cs.2 ≠ "" then birthComment else ""⟩]

/-- The age comment f-string of lines 128 and 134 of extractor.py. -/
def ageComment (yr : String) : String :=
  "As on year " ++ yr ++ ". His birthdate is formatted in ISO format for easy parsing, while his age serves as a key demographic marker for analytical purposes."

/-- Lines 124-138 of extractor.py: the Age row. -/
def ageRow (text : String) : Row :=
  match reSearch flagsI P_age1 text with
  | some m => ⟨"Age", mGroup text m 1 ++ " years", ageComment (mGroup text m 2)⟩
  | none =>
    match reSearch flagsI P_age2 text with
    | some m2 => ⟨"Age", mGroup text m2 1 ++ " years", ageComment (mGroup text m2 2)⟩
    | none => ⟨"Age", "", ""⟩

/-- Lines 141-143 of extractor.py: the Blood Group row. -/
def bgRow (text : String) : Row :=
  let bg :=
    match reSearch flags0 P_bg text with
    | some m => mGroup text m 0
    | none => ""
  ⟨"Blood Group", bg, if bg ≠ "" then "Emergency contact purposes." else ""⟩

/-- Lines 145-147 of extractor.py: the Nationality row. -/
def natRow (text : String) : Row :=
  let nat :=
    match reSearch flags0 P_nat text with
    | some m => mGroup text m 0
    | none => ""
  ⟨"Nationality", nat,
    if nat ≠ "" then
      "Citizenship status is important for understanding his work authorization and visa requirements across different employment opportunities."
    else ""⟩

/-- Lines 151-170 of extractor.py: the four first-professional-role rows. -/
def empRows (text : String) : List Row :=
  match reSearch flagsIS P_emp text with
  | some m =>
    [⟨"Joining Date of first professional role", joinFmt (mGroup text m 1), ""⟩,
     ⟨"Designation of first professional role", pyStrip (mGroup text m 2), ""⟩,
     ⟨"Salary of first professional role", normalize_salary (some (mGroup text m 3)), ""⟩,
     ⟨"Salary currency of first professional role", "INR", ""⟩]
  | none =>
    [⟨"Joining Date of first professional role", "1-Jul-12", ""⟩,
     ⟨"Designation of first professional role", "Junior Developer", ""⟩,
     ⟨"Salary of first professional role", "350000", ""⟩,
     ⟨"Salary currency of first professional role", "INR", ""⟩]

/-- The current-salary comment literal of lines 188 and 194 of extractor.py. -/
def salaryComment : String :=
  "This salary progression from his starting compensation to his current peak salary of 2,800,000 INR represents a substantial eight- fold increase over his twelve-year career span."

/-- Lines 173-195 of extractor.py: the five current-organization rows. -/
def currRows (text : String) : List Row :=
  match reSearch flagsIS P_curr text with
  | some m =>
    [⟨"Current Organization", pyStrip (mGroup text m 1), ""⟩,
     ⟨"Current Joining Date", joinFmt (mGroup text m 2), ""⟩,
     ⟨"Current Designation", pyStrip (mGroup text m 3), ""⟩,
     ⟨"Current Salary", normalize_salary (some (mGroup text m 4)), salaryComment⟩,
     ⟨"Current Salary Currency", "INR", ""⟩]
  | none =>
    [⟨"Current Organization", "Resse Analytics", ""⟩,
     ⟨"Current Joining Date", "15-Jun-21", ""⟩,
     ⟨"Current Designation", "Senior Data Engineer", ""⟩,
     ⟨"Current Salary", "2800000", salaryComment⟩,
     ⟨"Current Salary Currency", "INR", ""⟩]

/-- Lines 198-215 of extractor.py: the previous-organization rows (emitted
only when "LakeCorp" occurs in the text). -/
def prevRows (text : String) : List Row :=
  if containsSub text "LakeCorp" || containsSub text "LakeCorp Solutions" then
    ⟨"Previous Organization", "LakeCorp", ""⟩ ::
      (match reSearch flagsI P_prev text with
       | some m =>
         [⟨"Previous Joining Date",
            (match strptimeBdY (pyStrip (mGroup text m 1)) with
             | some (y, mo, d) => strftimeDbY y mo d
             | none => mGroup text m 1), ""⟩,
          ⟨"Previous end year", pyStrip (mGroup text m 2), ""⟩,
          ⟨"Previous Starting Designation", pyStrip (mGroup text m 3), "Promoted in 2019"⟩]
       | none =>
         [⟨"Previous Joining Date", "1-Feb-18", ""⟩,
          ⟨"Previous end year", "2021", ""⟩,
          ⟨"Previous Starting Designation", "Data Analyst", "Promoted in 2019"⟩])
  else []

/-- The 12th-standard comment literal of lines 225 and 229 of extractor.py. -/
def hsComment : String :=
  "His core subjects included Mathematics, Physics, Chemistry, and Computer Science, demonstrating his early aptitude for technical disciplines."

/-- Lines 219-230 of extractor.py: the three high-school rows. -/
def hsRows (text : String) : List Row :=
  match reSearch flagsIS P_hs text with
  | some m =>
    [⟨"High School", pyStrip (mGroup text m 1), ""⟩,
     ⟨"12th standard pass out year", pyStrip (mGroup text m 2), hsComment⟩,
     ⟨"12th overall board score", pyStrip (mGroup text m 3) ++ "%", "Outstanding achievement"⟩]
  | none =>
    [⟨"High School", "St. Xavier\x27s School, Jaipur", ""⟩,
     ⟨"12th standard pass out year", "2007", hsComment⟩,
     ⟨"12th overall board score", "92.50%", "Outstanding achievement"⟩]

/-- Lines 233-240 of extractor.py: the eight unconditional education rows. -/
def educationRows : List Row :=
  [⟨"Undergraduate degree", "B.Tech (Computer Science)", ""⟩,
   ⟨"Undergraduate college", "IIT Delhi", ""⟩,
   ⟨"Undergraduate year", "2011", "Graduating with honors and ranking 15th among 120 students in his class."⟩,
   ⟨"Undergraduate CGPA", "8.7", "On a 10-point scale"⟩,
   ⟨"Graduation degree", "M.Tech (Data Science)", ""⟩,
   ⟨"Graduation college", "IIT Bombay", "Continued academic excellence at IIT Bombay"⟩,
   ⟨"Graduation year", "2013", ""⟩,
   ⟨"Graduation CGPA", "9.2", "Considered exceptional and scoring 95 out of 100 for his final year thesis project."⟩]

/-- Lines 244-251 of extractor.py: the certification rows, each keyed by a
substring test. -/
def certRows (text : String) : List Row :=
  (if containsSub text "AWS Solutions Architect" then
    [⟨"Certifications 1", "AWS Solutions Architect", "Vijay\x27s commitment to continuous learning is evident through his impressive certification scores. He passed the AWS Solutions Architect exam in 2019 with a score of 920 out of 1000"⟩]
   else []) ++
  (if containsSub text "Azure Data Engineer" then
    [⟨"Certifications 2", "Azure Data Engineer", "Pursued in the year 2020 with 875 points."⟩]
   else []) ++
  (if containsSub text "Project Management Professional" || containsSub text "PMP" then
    [⟨"Certifications 3", "Project Management Professional certification", "Obtained in 2021, was achieved with an \"Above Target\" rating from PMI, These certifications complement his practical experience and demonstrate his expertise across multiple technology platforms."⟩]
   else []) ++
  (if containsSub text "SAFe Agilist" then
    [⟨"Certifications 4", "SAFe Agilist certification", "Earned him an outstanding 98% score. Certifications complement his practical experience and demonstrate his expertise across multiple technology platforms."⟩]
   else [])

/-- Lines 254-263 of extractor.py: the Technical Proficiency row. -/
def techRow (text : String) : Row :=
  let tc :=
    match reSearch flagsIS P_tech text with
    | some m => "In terms of technical proficiency," ++ pyStrip (mGroup text m 1)
    | none =>
      match reSearch flagsIS P_tech2 text with
      | some m2 => mGroup text m2 0
      | none => ""
  ⟨"Technical Proficiency", "", tc⟩

/-- Embeds `build_rows_from_text` (extractor.py lines 46-265): the row
blocks are appended in source order. -/
def build_rows_from_text (text : String) : List Row :=
  nameRows text ++ [dobRow text] ++ cityRows text ++ [ageRow text] ++
  [bgRow text, natRow text] ++ empRows text ++ currRows text ++ prevRows text ++
  hsRows text ++ educationRows ++ certRows text ++ [techRow text]

/-- Modelled from the spec: the Record of §3 of the specification's generic
heuristic parser (the "no-AI" line-classification variant, whose source file
is not under `src/`): a `key`/`value`/`comments` triple. -/
structure GRecord where
  key : String
  value : String
  comments : String
deriving DecidableEq, Repr

/-- Modelled from the spec: the label character class of §4.1 rule 1 of the
specification — "letters, digits, spaces, and the punctuation set
`. & ( ) / -`" (the class excludes the colon). -/
def labelChar (c : Char) : Bool :=
  isAlphaAZ c || isDigit09 c || c = ' ' || c = '.' || c = '&' || c = '(' ||
    c = ')' || c = '/' || c = '-'

/-- Split a character list at its first colon: the part before it (which
therefore contains no colon) and the part after it. -/
def splitFirstColon : List Char → Option (List Char × List Char)
  | [] => none
  | c :: cs =>
    if c = ':' then some ([], cs)
    else (splitFirstColon cs).map (fun p => (c :: p.1, p.2))

/-- Modelled from the spec: the colon-form detection rule of §4.1 rule 1 of
the specification, absent from `src/`: the line matches `<label>: <rest>`
where `<label>` is 1-81 characters drawn from `labelChar` (so it cannot
contain a colon before the separator), and `<rest>` is everything after the
first colon, trimmed. -/
def colonForm (line : String) : Option (String × String) :=
  match splitFirstColon line.toList with
  | none => none
  | some (l, r) =>
    if 1 ≤ l.length && l.length ≤ 81 && l.all labelChar then
      some (String.mk l, pyStrip (String.mk r))
    else none

/-- Modelled from the spec: Pass 1 (value backfill) of the Record Assembler
(§4.2 of the specification, absent from `src/`): for a record with empty
`value` and non-empty `comments`, split `comments` into lines; if the first
line is shorter than 120 characters, promote it into `value` (trimmed) and
reset `comments` to the remaining lines rejoined with newline (trimmed). -/
def backfill (r : GRecord) : GRecord :=
  if r.value = "" && r.comments ≠ "" then
    match splitLines r.comments with
    | [] => r
    | first :: rest =>
      if first.length < 120 then
        { r with value := pyStrip first,
                 comments := pyStrip (String.intercalate "\n" rest) }
      else r
  else r

/-- Modelled from the spec: one step of Pass 2 (duplicate-key
disambiguation) of §4.2 of the specification: increment the key-occurrence
counter for the record's key; if this is not the first occurrence, rewrite
the key to `"<original key> <occurrence count>"`. -/
def renameStep (cnt : String → Nat) (r : GRecord) : (String → Nat) × GRecord :=
  let n := cnt r.key + 1
  (fun k => if k = r.key then n else cnt k,
   if n = 1 then r else { r with key := r.key ++ " " ++ toString n })

/-- Modelled from the spec: the walk of Pass 2 over the record sequence,
threading the key-occurrence counter. -/
def renameDupsAux : (String → Nat) → List GRecord → List GRecord
  | _, [] => []
  | cnt, r :: rs =>
    let step := renameStep cnt r
    step.2 :: renameDupsAux step.1 rs

/-- Modelled from the spec: Pass 2 (duplicate-key disambiguation) of the
Record Assembler, starting from an empty key-occurrence counter. -/
def renameDups (rs : List GRecord) : List GRecord :=
  renameDupsAux (fun _ => 0) rs

/-- Modelled from the spec: the Record Assembler of §4.2 of the
specification (absent from `src/`): Pass 1 (value backfill) on each record,
then Pass 2 (duplicate-key disambiguation) over the sequence. -/
def assemble (rs : List GRecord) : List GRecord :=
  renameDups (rs.map backfill)

/-- Embeds the data part of `create_excel_output` (streamlit.py lines
235-239): after `df = df[['Key', 'Value', 'Comments']]` the call
`df.insert(0, '#', range(23, 23 + len(df)))` pairs each record positionally
with a row index counting from 23. -/
def create_excel_output (data : List Row) : List (Nat × Row) :=
  List.zip (List.range' 23 data.length) data

/-- The six ASCII whitespace characters of the `\s` class, as a list. -/
def wsChars : List Char := [' ', '\t', '\n', '\x0d', '\x0b', '\x0c']

/-- Conservative syntactic witness that every successful match of a pattern
must consume at least one non-whitespace character: a literal that is not
whitespace in either letter case, a class rejecting all whitespace, a
concatenation with such a factor, or an alternation or group of such
patterns.  Repetitions, anchors and word boundaries can succeed without
consuming, so they never witness. -/
def rejWs : Re → Bool
  | .lit c => !isSpaceRe c && !isSpaceRe (lowerCh c)
  | .cls p => wsChars.all (fun c => !p c)
  | .seq a b => rejWs a || rejWs b
  | .alt a b => rejWs a && rejWs b
  | .grp _ a => rejWs a
  | _ => false

/-- The name block emits zero or two rows. -/
theorem nameRows_length (t : String) :
    (nameRows t).length = 0 ∨ (nameRows t).length = 2 := by
  unfold nameRows
  repeat' split
  all_goals first
    | exact Or.inl rfl
    | exact Or.inr rfl

/-- The city block always emits two rows. -/
theorem cityRows_length (t : String) : (cityRows t).length = 2 := rfl

/-- The employment block always emits four rows. -/
theorem empRows_length (t : String) : (empRows t).length = 4 := by
  unfold empRows
  split <;> rfl

/-- The current-organization block always emits five rows. -/
theorem currRows_length (t : String) : (currRows t).length = 5 := by
  unfold currRows
  split <;> rfl

/-- The previous-organization block emits zero or four rows. -/
theorem prevRows_length (t : String) :
    (prevRows t).length = 0 ∨ (prevRows t).length = 4 := by
  unfold prevRows
  repeat' split
  all_goals first
    | exact Or.inl rfl
    | exact Or.inr rfl

/-- The high-school block always emits three rows. -/
theorem hsRows_length (t : String) : (hsRows t).length = 3 := by
  unfold hsRows
  split <;> rfl

/-- The extractor emits at least its 27 unconditional rows on every input. -/
theorem build_length_ge (t : String) : 27 ≤ (build_rows_from_text t).length := by
  unfold build_rows_from_text
  simp only [List.length_append, List.length_cons, List.length_nil]
  have h1 := nameRows_length t
  have h2 := cityRows_length t
  have h3 := empRows_length t
  have h4 := currRows_length t
  have h5 := prevRows_length t
  have h6 := hsRows_length t
  have h7 : educationRows.length = 8 := rfl
  omega

/-- Membership in a conditional singleton list forces equality. -/
theorem mem_ite_singleton {c : Prop} [Decidable c] {a r : Row}
    (h : r ∈ (if c then [a] else [])) : r = a := by
  split at h
  · simpa using h
  · simp at h

/-- Every name-block row carries a nonempty key. -/
theorem nameRows_key (t : String) : ∀ r ∈ nameRows t, r.Key ≠ "" := by
  unfold nameRows
  repeat' split
  all_goals intro r hr
  all_goals fin_cases hr
  all_goals simp

/-- Every city-block row carries a nonempty key. -/
theorem cityRows_key (t : String) : ∀ r ∈ cityRows t, r.Key ≠ "" := by
  intro r hr
  unfold cityRows at hr
  fin_cases hr <;> simp

/-- Every employment-block row carries a nonempty key. -/
theorem empRows_key (t : String) : ∀ r ∈ empRows t, r.Key ≠ "" := by
  unfold empRows
  split
  all_goals intro r hr
  all_goals fin_cases hr
  all_goals simp

/-- Every current-organization row carries a nonempty key. -/
theorem currRows_key (t : String) : ∀ r ∈ currRows t, r.Key ≠ "" := by
  unfold currRows
  split
  all_goals intro r hr
  all_goals fin_cases hr
  all_goals simp

/-- Every previous-organization row carries a nonempty key. -/
theorem prevRows_key (t : String) : ∀ r ∈ prevRows t, r.Key ≠ "" := by
  unfold prevRows
  repeat' split
  all_goals intro r hr
  all_goals fin_cases hr
  all_goals simp

/-- Every high-school row carries a nonempty key. -/
theorem hsRows_key (t : String) : ∀ r ∈ hsRows t, r.Key ≠ "" := by
  unfold hsRows
  split
  all_goals intro r hr
  all_goals fin_cases hr
  all_goals simp

/-- Every certification row carries a nonempty key. -/
theorem certRows_key (t : String) : ∀ r ∈ certRows t, r.Key ≠ "" := by
  intro r hr
  unfold certRows at hr
  rcases List.mem_append.1 hr with h | h
  · rcases List.mem_append.1 h with h | h
    · rcases List.mem_append.1 h with h | h
      · rw [mem_ite_singleton h]; simp
      · rw [mem_ite_singleton h]; simp
    · rw [mem_ite_singleton h]; simp
  · rw [mem_ite_singleton h]; simp

/-- Every row of the extractor's output carries a nonempty key: each of the
thirty-one `rows.append` sites of `build_rows_from_text` supplies a nonempty
string literal as the `"Key"` field. -/
theorem build_key_ne (t : String) (r : Row) (h : r ∈ build_rows_from_text t) :
    r.Key ≠ "" := by
  unfold build_rows_from_text at h
  simp only [List.mem_append, List.mem_cons, List.not_mem_nil, or_false] at h
  rcases h with ((((((((((h | rfl) | h) | rfl) | (rfl | rfl)) | h) | h) | h) | h) | h) | h) | rfl
  · exact nameRows_key t r h
  · simp [dobRow]
  · exact cityRows_key t r h
  · unfold ageRow
    repeat' split
    all_goals simp
  · simp [bgRow]
  · simp [natRow]
  · exact empRows_key t r h
  · exact currRows_key t r h
  · exact prevRows_key t r h
  · exact hsRows_key t r h
  · exact (by decide : ∀ x ∈ educationRows, x.Key ≠ "") r h
  · exact certRows_key t r h
  · simp [techRow]

/-- The characterizing equation of Pass 2, generalized over the incoming
key-occurrence counter: the record at position `i` keeps its key if the
counter value plus the number of occurrences of its key among the first
`i + 1` records is one, and otherwise gains that occurrence count as a
suffix. -/
theorem renameDupsAux_get (rs : List GRecord) :
    ∀ (cnt : String → Nat) (i : Nat) (r : GRecord), rs[i]? = some r →
      (renameDupsAux cnt rs)[i]? = some (
        let n := cnt r.key + (rs.take (i + 1)).countP (fun x => x.key = r.key)
        if n = 1 then r else { r with key := r.key ++ " " ++ toString n }) := by
  induction rs with
  | nil => intro cnt i r h; simp at h
  | cons r0 rs ih =>
    intro cnt i r h
    cases i with
    | zero =>
      simp only [List.getElem?_cons_zero, Option.some.injEq] at h
      subst h
      simp [renameDupsAux, renameStep, List.countP_cons]
    | succ i =>
      simp only [List.getElem?_cons_succ] at h
      have step := ih (renameStep cnt r0).1 i r h
      simp only [renameDupsAux, List.getElem?_cons_succ]
      rw [step]
      have hcnt : (renameStep cnt r0).1 r.key +
          (rs.take (i + 1)).countP (fun x => x.key = r.key) =
          cnt r.key + ((r0 :: rs).take (i + 1 + 1)).countP (fun x => x.key = r.key) := by
        simp only [renameStep, List.take_succ_cons, List.countP_cons]
        by_cases hk : r.key = r0.key
        · simp [hk, eq_comm]; omega
        · have : ¬(r0.key = r.key) := fun h2 => hk h2.symm
          simp [hk, this]
      rw [hcnt]

/-- Pass 2 with an all-distinct key sequence and a fresh counter is the
identity. -/
theorem renameDupsAux_id (rs : List GRecord) :
    ∀ cnt : String → Nat, (∀ r ∈ rs, cnt r.key = 0) →
      (rs.map GRecord.key).Nodup → renameDupsAux cnt rs = rs := by
  induction rs with
  | nil => intro cnt h hd; rfl
  | cons r0 rs ih =>
    intro cnt h hd
    simp only [List.map_cons, List.nodup_cons, List.mem_map] at hd
    have h0 : cnt r0.key = 0 := h r0 (List.mem_cons_self r0 rs)
    simp only [renameDupsAux, renameStep, h0]
    simp only [List.cons.injEq]
    refine ⟨by simp, ih _ ?_ hd.2⟩
    intro r hr
    have hne : r.key ≠ r0.key := fun he => hd.1 ⟨r, hr, he⟩
    simp [hne, h r (List.mem_cons_of_mem r0 hr)]

/-- A successful first-colon split reconstructs the input, and the part
before the colon contains no colon. -/
theorem splitFirstColon_spec (cs : List Char) :
    ∀ l r : List Char, splitFirstColon cs = some (l, r) →
      cs = l ++ ':' :: r ∧ ':' ∉ l := by
  induction cs with
  | nil => intro l r h; simp [splitFirstColon] at h
  | cons c cs ih =>
    intro l r h
    by_cases hc : c = ':'
    · subst hc
      simp only [splitFirstColon, if_pos rfl, Option.some.injEq, Prod.mk.injEq] at h
      rcases h with ⟨rfl, rfl⟩
      simp
    · simp only [splitFirstColon, if_neg hc, Option.map_eq_some'] at h
      rcases h with ⟨⟨l1, r1⟩, h1, h2⟩
      simp only [Prod.mk.injEq] at h2
      rcases h2 with ⟨rfl, rfl⟩
      rcases ih l1 r1 h1 with ⟨hcs, hnl⟩
      subst hcs
      refine ⟨rfl, ?_⟩
      intro hmem
      rcases List.mem_cons.1 hmem with he | hmem2
      · exact hc he.symm
      · exact hnl hmem2

/-- The assembler applied to a sequence of backfill fixed points with
pairwise-distinct keys is the identity. -/
theorem assemble_fixed (rs : List GRecord)
    (hfix : ∀ r ∈ rs, backfill r = r)
    (hnd : (rs.map GRecord.key).Nodup) : assemble rs = rs := by
  unfold assemble renameDups
  have hm : rs.map backfill = rs := by
    rw [List.map_congr_left hfix]; simp
  rw [hm]
  exact renameDupsAux_id rs (fun _ => 0) (fun r _ => rfl) hnd

/-- A whitespace character is one of the six listed characters. -/
theorem mem_wsChars_of_isSpaceRe (c : Char) (h : isSpaceRe c = true) :
    c ∈ wsChars := by
  simp only [isSpaceRe, Bool.or_eq_true, decide_eq_true_eq] at h
  simp only [wsChars, List.mem_cons, List.not_mem_nil, or_false]
  tauto

/-- Lower-casing fixes whitespace characters. -/
theorem lowerCh_ws (c : Char) (h : isSpaceRe c = true) : lowerCh c = c := by
  have hm := mem_wsChars_of_isSpaceRe c h
  fin_cases hm <;> decide

/-- A literal that is non-whitespace in either letter case never matches a
whitespace character, under either comparison mode. -/
theorem litEq_ws_false (fl : RFlags) (c c2 : Char)
    (h1 : isSpaceRe c = false) (h2 : isSpaceRe (lowerCh c) = false)
    (hc2 : isSpaceRe c2 = true) : litEq fl c c2 = false := by
  unfold litEq
  split
  · apply decide_eq_false
    intro he
    rw [lowerCh_ws c2 hc2] at he
    rw [he, hc2] at h2
    cases h2
  · apply decide_eq_false
    intro he
    subst he
    rw [hc2] at h1
    cases h1

/-- A matcher run whose continuation always fails fails itself: the matcher
produces a result only by eventually invoking its continuation. -/
theorem matRe_none_of_knone (fl : RFlags) (s : List Char) :
    ∀ (fuel : Nat) (re : Re) (pos : Nat) (gs : Groups)
      (k : Nat → Groups → Option (Nat × Groups)),
      (∀ p g, k p g = none) → matRe fl s fuel re pos gs k = none := by
  intro fuel
  induction fuel with
  | zero => intro re pos gs k hk; rfl
  | succ fuel ih =>
    intro re pos gs k hk
    cases re with
    | eps => exact hk pos gs
    | lit c =>
      simp only [matRe]
      cases s.get? pos with
      | none => rfl
      | some c2 => split <;> simp [hk]
    | cls p =>
      simp only [matRe]
      cases s.get? pos with
      | none => rfl
      | some c2 => split <;> simp [hk]
    | dot =>
      simp only [matRe]
      cases s.get? pos with
      | none => rfl
      | some c2 => split <;> simp [hk]
    | seq a b =>
      simp only [matRe]
      exact ih a pos gs _ (fun p g => ih b p g k hk)
    | alt a b =>
      simp only [matRe]
      rw [ih a pos gs k hk, ih b pos gs k hk]
    | star greedy a =>
      cases greedy with
      | true =>
        simp only [matRe]
        rw [ih a pos gs _ (fun p g => by
          by_cases hp : p = pos
          · simp [hp]
          · simp only [if_neg hp]
            exact ih (.star true a) p g k hk)]
        exact hk pos gs
      | false =>
        simp only [matRe]
        rw [hk pos gs]
        exact ih a pos gs _ (fun p g => by
          by_cases hp : p = pos
          · simp [hp]
          · simp only [if_neg hp]
            exact ih (.star false a) p g k hk)
    | grp i a =>
      simp only [matRe]
      exact ih a pos gs _ (fun p g => hk p _)
    | bol =>
      simp only [matRe]
      split <;> simp [hk]
    | eol =>
      simp only [matRe]
      split <;> simp [hk]
    | wb =>
      simp only [matRe]
      split <;> simp [hk]

/-- On all-whitespace text, a pattern with a `rejWs` witness never matches,
whatever the fuel, start position, captured groups and continuation. -/
theorem matRe_none_of_rejWs (fl : RFlags) (s : List Char)
    (hs : ∀ c ∈ s, isSpaceRe c = true) :
    ∀ re : Re, rejWs re = true →
      ∀ (fuel pos : Nat) (gs : Groups)
        (k : Nat → Groups → Option (Nat × Groups)),
        matRe fl s fuel re pos gs k = none := by
  intro re
  induction re with
  | eps => intro h; simp [rejWs] at h
  | lit c =>
    intro h fuel pos gs k
    simp only [rejWs, Bool.and_eq_true, Bool.not_eq_true'] at h
    cases fuel with
    | zero => rfl
    | succ fuel =>
      simp only [matRe]
      cases hg : s.get? pos with
      | none => rfl
      | some c2 =>
        have hc2 : isSpaceRe c2 = true := hs c2 (List.get?_mem hg)
        show (if litEq fl c c2 = true then k (pos + 1) gs else none) = none
        rw [litEq_ws_false fl c c2 h.1 h.2 hc2]
        rfl
  | cls p =>
    intro h fuel pos gs k
    simp only [rejWs, List.all_eq_true, Bool.not_eq_true'] at h
    cases fuel with
    | zero => rfl
    | succ fuel =>
      simp only [matRe]
      cases hg : s.get? pos with
      | none => rfl
      | some c2 =>
        have hc2 : isSpaceRe c2 = true := hs c2 (List.get?_mem hg)
        show (if p c2 = true then k (pos + 1) gs else none) = none
        rw [h c2 (mem_wsChars_of_isSpaceRe c2 hc2)]
        rfl
  | dot => intro h; simp [rejWs] at h
  | seq a b ia ib =>
    intro h fuel pos gs k
    cases fuel with
    | zero => rfl
    | succ fuel =>
      simp only [matRe]
      simp only [rejWs, Bool.or_eq_true] at h
      rcases h with h | h
      · exact ia h fuel pos gs _
      · exact matRe_none_of_knone fl s fuel a pos gs _ (fun p g => ib h fuel p g k)
  | alt a b ia ib =>
    intro h fuel pos gs k
    simp only [rejWs, Bool.and_eq_true] at h
    cases fuel with
    | zero => rfl
    | succ fuel =>
      simp only [matRe]
      rw [ia h.1 fuel pos gs k, ib h.2 fuel pos gs k]
  | star greedy a ia => intro h; simp [rejWs] at h
  | grp i a ia =>
    intro h fuel pos gs k
    cases fuel with
    | zero => rfl
    | succ fuel =>
      simp only [matRe]
      exact ia (by simpa [rejWs] using h) fuel pos gs _
  | bol => intro h; simp [rejWs] at h
  | eol => intro h; simp [rejWs] at h
  | wb => intro h; simp [rejWs] at h

/-- On all-whitespace text, a search for a `rejWs` pattern finds nothing. -/
theorem reSearch_ws_none (fl : RFlags) (re : Re) (t : String)
    (hs : ∀ c ∈ t.toList, isSpaceRe c = true) (hre : rejWs re = true) :
    reSearch fl re t = none := by
  unfold reSearch
  rw [List.findSome?_eq_none_iff]
  intro i hi
  rw [matRe_none_of_rejWs fl t.toList hs re hre _ i [] _]
  rfl

/-- On all-whitespace text, `find_first_match` over `rejWs` patterns finds
nothing. -/
theorem find_first_match_ws_none (ps : List Re) (fl : RFlags) (t : String)
    (hs : ∀ c ∈ t.toList, isSpaceRe c = true)
    (hps : ∀ p ∈ ps, rejWs p = true) :
    find_first_match ps fl t = none := by
  unfold find_first_match
  rw [List.findSome?_eq_none_iff]
  intro p hp
  exact reSearch_ws_none fl p t hs (hps p hp)

/-- An all-whitespace text contains no substring with a non-whitespace
character. -/
theorem containsSub_ws_false (t pat : String)
    (hs : ∀ c ∈ t.toList, isSpaceRe c = true)
    (hp : ∃ c ∈ pat.toList, isSpaceRe c = false) :
    containsSub t pat = false := by
  unfold containsSub
  rw [List.any_eq_false]
  intro i hi
  simp only [decide_eq_true_eq]
  intro heq
  obtain ⟨c, hcp, hcw⟩ := hp
  have hc1 : c ∈ (t.toList.drop i).take pat.toList.length := by
    rw [heq]; exact hcp
  have hc2 : c ∈ t.toList :=
    List.mem_of_mem_drop (List.mem_of_mem_take hc1)
  rw [hs c hc2] at hcw
  cases hcw

/-- On all-whitespace input the name block matches nothing. -/
theorem nameRows_ws (t : String) (hs : ∀ c ∈ t.toList, isSpaceRe c = true) :
    nameRows t = nameRows "" := by
  have h0 : ∀ c ∈ ("" : String).toList, isSpaceRe c = true := by decide
  unfold nameRows
  rw [reSearch_ws_none flags0 P_name t hs (by decide),
    reSearch_ws_none flagsM P_name2 t hs (by decide),
    reSearch_ws_none flags0 P_name "" h0 (by decide),
    reSearch_ws_none flagsM P_name2 "" h0 (by decide)]

/-- On all-whitespace input the date-of-birth row is the fallback. -/
theorem dobRow_ws (t : String) (hs : ∀ c ∈ t.toList, isSpaceRe c = true) :
    dobRow t = dobRow "" := by
  have h0 : ∀ c ∈ ("" : String).toList, isSpaceRe c = true := by decide
  unfold dobRow dobValue
  rw [find_first_match_ws_none [P_dob1, P_dob2, P_dob3] flagsI t hs (by decide),
    find_first_match_ws_none [P_dob1, P_dob2, P_dob3] flagsI "" h0 (by decide),
    reSearch_ws_none flags0 P_dob4 t hs (by decide),
    reSearch_ws_none flags0 P_dob4 "" h0 (by decide)]

/-- On all-whitespace input the city block is the fallback. -/
theorem cityRows_ws (t : String) (hs : ∀ c ∈ t.toList, isSpaceRe c = true) :
    cityRows t = cityRows "" := by
  have h0 : ∀ c ∈ ("" : String).toList, isSpaceRe c = true := by decide
  unfold cityRows cityState
  rw [reSearch_ws_none flagsI P_city t hs (by decide),
    reSearch_ws_none flags0 P_pink t hs (by decide),
    reSearch_ws_none flags0 P_jaipur t hs (by decide),
    reSearch_ws_none flags0 P_raj t hs (by decide),
    reSearch_ws_none flagsI P_city "" h0 (by decide),
    reSearch_ws_none flags0 P_pink "" h0 (by decide),
    reSearch_ws_none flags0 P_jaipur "" h0 (by decide),
    reSearch_ws_none flags0 P_raj "" h0 (by decide)]

/-- On all-whitespace input the age row is the fallback. -/
theorem ageRow_ws (t : String) (hs : ∀ c ∈ t.toList, isSpaceRe c = true) :
    ageRow t = ageRow "" := by
  have h0 : ∀ c ∈ ("" : String).toList, isSpaceRe c = true := by decide
  unfold ageRow
  rw [reSearch_ws_none flagsI P_age1 t hs (by decide),
    reSearch_ws_none flagsI P_age2 t hs (by decide),
    reSearch_ws_none flagsI P_age1 "" h0 (by decide),
    reSearch_ws_none flagsI P_age2 "" h0 (by decide)]

/-- On all-whitespace input the blood-group row is the fallback. -/
theorem bgRow_ws (t : String) (hs : ∀ c ∈ t.toList, isSpaceRe c = true) :
    bgRow t = bgRow "" := by
  have h0 : ∀ c ∈ ("" : String).toList, isSpaceRe c = true := by decide
  unfold bgRow
  rw [reSearch_ws_none flags0 P_bg t hs (by decide),
    reSearch_ws_none flags0 P_bg "" h0 (by decide)]

/-- On all-whitespace input the nationality row is the fallback. -/
theorem natRow_ws (t : String) (hs : ∀ c ∈ t.toList, isSpaceRe c = true) :
    natRow t = natRow "" := by
  have h0 : ∀ c ∈ ("" : String).toList, isSpaceRe c = true := by decide
  unfold natRow
  rw [reSearch_ws_none flags0 P_nat t hs (by decide),
    reSearch_ws_none flags0 P_nat "" h0 (by decide)]

/-- On all-whitespace input the employment block is the fallback. -/
theorem empRows_ws (t : String) (hs : ∀ c ∈ t.toList, isSpaceRe c = true) :
    empRows t = empRows "" := by
  have h0 : ∀ c ∈ ("" : String).toList, isSpaceRe c = true := by decide
  unfold empRows
  rw [reSearch_ws_none flagsIS P_emp t hs (by decide),
    reSearch_ws_none flagsIS P_emp "" h0 (by decide)]

/-- On all-whitespace input the current-organization block is the fallback. -/
theorem currRows_ws (t : String) (hs : ∀ c ∈ t.toList, isSpaceRe c = true) :
    currRows t = currRows "" := by
  have h0 : ∀ c ∈ ("" : String).toList, isSpaceRe c = true := by decide
  unfold currRows
  rw [reSearch_ws_none flagsIS P_curr t hs (by decide),
    reSearch_ws_none flagsIS P_curr "" h0 (by decide)]

/-- On all-whitespace input the previous-organization block is empty. -/
theorem prevRows_ws (t : String) (hs : ∀ c ∈ t.toList, isSpaceRe c = true) :
    prevRows t = prevRows "" := by
  have h0 : ∀ c ∈ ("" : String).toList, isSpaceRe c = true := by decide
  unfold prevRows
  rw [containsSub_ws_false t "LakeCorp" hs (by decide),
    containsSub_ws_false t "LakeCorp Solutions" hs (by decide),
    containsSub_ws_false "" "LakeCorp" h0 (by decide),
    containsSub_ws_false "" "LakeCorp Solutions" h0 (by decide)]
  rfl

/-- On all-whitespace input the high-school block is the fallback. -/
theorem hsRows_ws (t : String) (hs : ∀ c ∈ t.toList, isSpaceRe c = true) :
    hsRows t = hsRows "" := by
  have h0 : ∀ c ∈ ("" : String).toList, isSpaceRe c = true := by decide
  unfold hsRows
  rw [reSearch_ws_none flagsIS P_hs t hs (by decide),
    reSearch_ws_none flagsIS P_hs "" h0 (by decide)]

/-- On all-whitespace input no certification row is emitted. -/
theorem certRows_ws (t : String) (hs : ∀ c ∈ t.toList, isSpaceRe c = true) :
    certRows t = certRows "" := by
  have h0 : ∀ c ∈ ("" : String).toList, isSpaceRe c = true := by decide
  unfold certRows
  rw [containsSub_ws_false t "AWS Solutions Architect" hs (by decide),
    containsSub_ws_false t "Azure Data Engineer" hs (by decide),
    containsSub_ws_false t "Project Management Professional" hs (by decide),
    containsSub_ws_false t "PMP" hs (by decide),
    containsSub_ws_false t "SAFe Agilist" hs (by decide),
    containsSub_ws_false "" "AWS Solutions Architect" h0 (by decide),
    containsSub_ws_false "" "Azure Data Engineer" h0 (by decide),
    containsSub_ws_false "" "Project Management Professional" h0 (by decide),
    containsSub_ws_false "" "PMP" h0 (by decide),
    containsSub_ws_false "" "SAFe Agilist" h0 (by decide)]

/-- On all-whitespace input the technical-proficiency row is blank. -/
theorem techRow_ws (t : String) (hs : ∀ c ∈ t.toList, isSpaceRe c = true) :
    techRow t = techRow "" := by
  have h0 : ∀ c ∈ ("" : String).toList, isSpaceRe c = true := by decide
  unfold techRow
  rw [reSearch_ws_none flagsIS P_tech t hs (by decide),
    reSearch_ws_none flagsIS P_tech2 t hs (by decide),
    reSearch_ws_none flagsIS P_tech "" h0 (by decide),
    reSearch_ws_none flagsIS P_tech2 "" h0 (by decide)]

/-- Every input consisting entirely of whitespace (the empty text or any
text of blank lines) yields the same fixed fallback sequence as the empty
input: every regex search and substring test of the extractor requires a
non-whitespace character. -/
theorem build_rows_ws (t : String) (hs : ∀ c ∈ t.toList, isSpaceRe c = true) :
    build_rows_from_text t = build_rows_from_text "" := by
  unfold build_rows_from_text
  rw [nameRows_ws t hs, dobRow_ws t hs, cityRows_ws t hs, ageRow_ws t hs,
    bgRow_ws t hs, natRow_ws t hs, empRows_ws t hs, currRows_ws t hs,
    prevRows_ws t hs, hsRows_ws t hs, certRows_ws t hs, techRow_ws t hs]

/-- C1 (counterexample): the claim "for every input text that is empty or
consists entirely of blank lines, build_rows_from_text returns an empty
output sequence" is false at the concrete input `""`: the extractor emits
its 27 fallback rows there, not an empty list. -/
theorem C1_counterexample : build_rows_from_text "" ≠ [] := by
  intro h
  have h27 := build_length_ge ""
  rw [h] at h27
  simp at h27

set_option maxRecDepth 10000 in
/-- C1 (amended): `build_rows_from_text` is a total function that never
returns an empty sequence: every input yields at least the 27 unconditional
rows, and every input that is empty or consists entirely of blank lines
(equivalently, every character is whitespace) yields the same fixed 27-row
fallback sequence as the empty input. -/
theorem C1_spec :
    (∀ t : String, 27 ≤ (build_rows_from_text t).length) ∧
    (∀ t : String, (∀ c ∈ t.toList, isSpaceRe c = true) →
      build_rows_from_text t = build_rows_from_text "") ∧
    (build_rows_from_text "").length = 27 :=
  ⟨build_length_ge, build_rows_ws, by decide⟩

set_option maxRecDepth 10000 in
/-- C1 (witness): the concrete three-blank-line text is all whitespace and
produces the empty-input fallback sequence. -/
theorem C1_witness :
    (∀ c ∈ ("\n \n\t\n" : String).toList, isSpaceRe c = true) ∧
    build_rows_from_text "\n \n\t\n" = build_rows_from_text "" :=
  ⟨by decide, C1_spec.2.1 "\n \n\t\n" (by decide)⟩

/-- C3: every record emitted by `build_rows_from_text` has at least one of
Key, Value, Comments non-empty; in fact every `rows.append` site of the
extractor supplies a nonempty literal Key, so no fully-blank record (and no
pure-comment record with empty key and value) is ever emitted. -/
theorem C3_spec (t : String) (r : Row) (h : r ∈ build_rows_from_text t) :
    r.Key ≠ "" ∨ r.Value ≠ "" ∨ r.Comments ≠ "" :=
  Or.inl (build_key_ne t r h)

/-- C3 (witness): the Date of Birth row of the empty input instantiates the
invariant. -/
theorem C3_witness :
    (⟨"Date of Birth", "", ""⟩ : Row) ∈ build_rows_from_text "" ∧
    ((⟨"Date of Birth", "", ""⟩ : Row).Key ≠ "" ∨
      (⟨"Date of Birth", "", ""⟩ : Row).Value ≠ "" ∨
      (⟨"Date of Birth", "", ""⟩ : Row).Comments ≠ "") := by
  have hm : (⟨"Date of Birth", "", ""⟩ : Row) ∈ build_rows_from_text "" := by decide
  exact ⟨hm, C3_spec "" ⟨"Date of Birth", "", ""⟩ hm⟩

/-- C7: the parse is deterministic: `build_rows_from_text` is embedded as a
pure total function of the input text alone (its only data sources are the
regex searches over that text), so two runs on the same input produce
identical output sequences. -/
theorem C7_spec (t : String) :
    build_rows_from_text t = build_rows_from_text t := rfl

/-- C8: for every input string, `build_rows_from_text` returns at least 27
records, and the eight education rows of lines 233-240 — among them
`Undergraduate college / IIT Delhi` and `Graduation college / IIT Bombay` —
appear with values fixed independently of the input. -/
theorem C8_spec (t : String) :
    27 ≤ (build_rows_from_text t).length ∧
    educationRows.length = 8 ∧
    (∀ r ∈ educationRows, r ∈ build_rows_from_text t) ∧
    (⟨"Undergraduate college", "IIT Delhi", ""⟩ : Row) ∈ build_rows_from_text t ∧
    (⟨"Graduation college", "IIT Bombay", "Continued academic excellence at IIT Bombay"⟩ : Row)
      ∈ build_rows_from_text t := by
  have hsub : ∀ r ∈ educationRows, r ∈ build_rows_from_text t := by
    intro r hr
    unfold build_rows_from_text
    simp only [List.mem_append]
    tauto
  refine ⟨build_length_ge t, rfl, hsub, ?_, ?_⟩
  · exact hsub ⟨"Undergraduate college", "IIT Delhi", ""⟩ (by decide)
  · exact hsub _ (by decide)

/-- C8 (witness): the education rows at the concrete empty input. -/
theorem C8_witness :
    27 ≤ (build_rows_from_text "").length ∧
    (⟨"Undergraduate college", "IIT Delhi", ""⟩ : Row) ∈ build_rows_from_text "" :=
  ⟨(C8_spec "").1, (C8_spec "").2.2.1 ⟨"Undergraduate college", "IIT Delhi", ""⟩ (by decide)⟩

/-- C9 (counterexample): the claim "normalize_salary returns the empty
string when its argument contains no digit characters" is false at the
concrete input `"."`: the stripped remainder `"."` is nonempty, `float(".")`
raises, the bare `except` returns the remainder, and the result is `"."`. -/
theorem C9_counterexample :
    ("." : String).toList.any isDigit09 = false ∧
    normalize_salary (some ".") ≠ "" := by
  constructor <;> decide

set_option maxRecDepth 100000 in
set_option exponentiation.threshold 3000 in
/-- C9 (amended): `normalize_salary` is total and never raises.  It returns
`""` exactly when its argument is `None` or when removing every character
other than digits and dots leaves nothing; when the remainder parses as a
float it returns `int(float(s))` as a decimal string — the exact truncation
for values within double precision ("350,000" maps to "350000" and
"2,800,000.50" to "2800000"), but rounded through the binary64 format beyond
2^53 ("9007199254740993" yields "9007199254740992"); a nonempty remainder
that does not parse (e.g. ".") or whose value overflows the double range
(where `int(inf)` raises `OverflowError` and the bare `except` fires) is
returned verbatim, as for the 401-digit string 1 followed by 400 zeros. -/
theorem C9_spec :
    normalize_salary none = "" ∧
    (∀ r : String, stripNonDigitDot (dropCommas r) = "" →
      normalize_salary (some r) = "") ∧
    (∀ (r : String) (v : Nat),
      pyIntFloat (stripNonDigitDot (dropCommas r)) = some v →
      normalize_salary (some r) = toString v) ∧
    (∀ r : String, stripNonDigitDot (dropCommas r) ≠ "" →
      pyIntFloat (stripNonDigitDot (dropCommas r)) = none →
      normalize_salary (some r) = stripNonDigitDot (dropCommas r)) ∧
    normalize_salary (some "350,000") = "350000" ∧
    normalize_salary (some "2,800,000.50") = "2800000" ∧
    normalize_salary (some ".") = "." ∧
    normalize_salary (some "9007199254740993") = "9007199254740992" ∧
    normalize_salary (some (String.mk ('1' :: List.replicate 400 '0'))) =
      String.mk ('1' :: List.replicate 400 '0') := by
  refine ⟨rfl, ?_, ?_, ?_, by decide, by decide, by decide, by decide, by decide⟩
  · intro r h
    simp [normalize_salary, h]
  · intro r v h
    have hne : stripNonDigitDot (dropCommas r) ≠ "" := by
      intro he
      rw [he] at h
      simp [pyIntFloat] at h
    simp [normalize_salary, hne, h]
  · intro r hne h
    simp [normalize_salary, hne, h]

set_option maxRecDepth 100000 in
set_option exponentiation.threshold 3000 in
/-- C9 (witness): the truncation clause at the concrete input "2,800,000.50". -/
theorem C9_witness :
    pyIntFloat (stripNonDigitDot (dropCommas "2,800,000.50")) = some 2800000 ∧
    normalize_salary (some "2,800,000.50") = toString (2800000 : Nat) :=
  ⟨by decide, C9_spec.2.2.1 "2,800,000.50" 2800000 (by decide)⟩

/-- C10: the Excel row-index column `#` of `create_excel_output` never
starts at 1: the indices are exactly `range' 23 n`, i.e. the positions
`23, 24, ..., 22 + n`, with position `i` numbered `23 + i` and the first row
numbered 23. -/
theorem C10_spec (data : List Row) :
    (create_excel_output data).map Prod.fst = List.range' 23 data.length ∧
    (∀ i : Nat, i < data.length →
      ((create_excel_output data).map Prod.fst)[i]? = some (23 + i)) ∧
    (data ≠ [] → ((create_excel_output data).map Prod.fst).head? = some 23) := by
  have hmap : (create_excel_output data).map Prod.fst = List.range' 23 data.length := by
    unfold create_excel_output
    exact List.map_fst_zip _ _ (by simp)
  refine ⟨hmap, ?_, ?_⟩
  · intro i hi
    rw [hmap]
    simp [List.getElem?_range', hi]
  · intro hne
    rw [hmap]
    cases data with
    | nil => exact absurd rfl hne
    | cons a l => simp [List.range'_succ]

/-- C10 (witness): a two-record list is numbered 23 and 24. -/
theorem C10_witness :
    ((create_excel_output [⟨"A", "B", "C"⟩, ⟨"D", "E", "F"⟩]).map Prod.fst)[0]? = some 23 ∧
    ((create_excel_output [⟨"A", "B", "C"⟩, ⟨"D", "E", "F"⟩]).map Prod.fst).head? = some 23 :=
  ⟨by
    have := (C10_spec [⟨"A", "B", "C"⟩, ⟨"D", "E", "F"⟩]).2.1 0 (by decide)
    simpa using this,
   (C10_spec [⟨"A", "B", "C"⟩, ⟨"D", "E", "F"⟩]).2.2 (by decide)⟩

/-- C2: in duplicate-key disambiguation the first occurrence of a key is
kept bare and the n-th occurrence (n at least 2) becomes
`"<original key> <n>"`, counting occurrences of the key as it stood before
the pass; keys `["Skill", "Skill", "Other", "Skill"]` become
`["Skill", "Skill 2", "Other", "Skill 3"]`, and two `Certifications`
records become `Certifications` and `Certifications 2`. -/
theorem C2_spec :
    (∀ (rs : List GRecord) (i : Nat) (r : GRecord), rs[i]? = some r →
      (renameDups rs)[i]? = some (
        let n := (rs.take (i + 1)).countP (fun x => x.key = r.key)
        if n = 1 then r else { r with key := r.key ++ " " ++ toString n })) ∧
    (renameDups [⟨"Skill", "", ""⟩, ⟨"Skill", "", ""⟩, ⟨"Other", "", ""⟩,
        ⟨"Skill", "", ""⟩]).map GRecord.key = ["Skill", "Skill 2", "Other", "Skill 3"] ∧
    (renameDups [⟨"Certifications", "AWS Associate", ""⟩,
        ⟨"Certifications", "Azure Fundamentals", ""⟩]).map GRecord.key
      = ["Certifications", "Certifications 2"] := by
  refine ⟨?_, by decide, by decide⟩
  intro rs i r h
  have step := renameDupsAux_get rs (fun _ => 0) i r h
  simpa using step

/-- C2 (witness): the second of two `Skill` records is renamed `Skill 2`. -/
theorem C2_witness :
    ([⟨"Skill", "a", ""⟩, ⟨"Skill", "b", ""⟩] : List GRecord)[1]? =
      some ⟨"Skill", "b", ""⟩ ∧
    (renameDups [⟨"Skill", "a", ""⟩, ⟨"Skill", "b", ""⟩])[1]? =
      some ⟨"Skill 2", "b", ""⟩ := by
  refine ⟨by decide, ?_⟩
  have h := C2_spec.1 [⟨"Skill", "a", ""⟩, ⟨"Skill", "b", ""⟩] 1
    ⟨"Skill", "b", ""⟩ (by decide)
  exact h.trans (by decide)

/-- C4: a line accepted by the colon form splits exactly at its first
colon — the key is the colon-free label before it (1-81 label-class
characters) and the value is everything after it, stripped, possibly itself
containing colons — as on `"Time: 10:30 to 11:00"`. -/
theorem C4_spec :
    (∀ line k v : String, colonForm line = some (k, v) →
      ∃ rest : List Char,
        line.toList = k.toList ++ ':' :: rest ∧
        ':' ∉ k.toList ∧
        v = pyStrip (String.mk rest) ∧
        1 ≤ k.length ∧ k.length ≤ 81 ∧ k.toList.all labelChar) ∧
    colonForm "Time: 10:30 to 11:00" = some ("Time", "10:30 to 11:00") := by
  refine ⟨?_, by decide⟩
  intro line k v h
  unfold colonForm at h
  rcases hsp : splitFirstColon line.toList with _ | ⟨l, r⟩
  · rw [hsp] at h; simp at h
  · rw [hsp] at h
    have h2 : (if 1 ≤ l.length && l.length ≤ 81 && l.all labelChar then
        some (String.mk l, pyStrip (String.mk r)) else none) = some (k, v) := h
    clear h
    by_cases hc : (1 ≤ l.length && l.length ≤ 81 && l.all labelChar) = true
    · rw [if_pos hc] at h2
      simp only [Option.some.injEq, Prod.mk.injEq] at h2
      obtain ⟨rfl, rfl⟩ := h2
      obtain ⟨hcs, hnc⟩ := splitFirstColon_spec line.toList l r hsp
      simp only [Bool.and_eq_true, decide_eq_true_eq, List.all_eq_true] at hc
      refine ⟨r, hcs, hnc, rfl, ?_, ?_, ?_⟩
      · simpa [String.length_mk] using hc.1.1
      · simpa [String.length_mk] using hc.1.2
      · simpa using hc.2
    · rw [if_neg hc] at h2
      simp at h2

/-- C4 (witness): the mixed-colon line splits at its first colon. -/
theorem C4_witness :
    colonForm "Time: 10:30 to 11:00" = some ("Time", "10:30 to 11:00") ∧
    ∃ rest : List Char,
      ("Time: 10:30 to 11:00" : String).toList = ("Time" : String).toList ++ ':' :: rest ∧
      ':' ∉ ("Time" : String).toList ∧
      ("10:30 to 11:00" : String) = pyStrip (String.mk rest) ∧
      1 ≤ ("Time" : String).length ∧ ("Time" : String).length ≤ 81 ∧
      ("Time" : String).toList.all labelChar :=
  ⟨by decide, C4_spec.1 "Time: 10:30 to 11:00" "Time" "10:30 to 11:00" (by decide)⟩

/-- C5: Pass 1 value backfill fires exactly for records with empty value and
non-empty comments whose first comments line is shorter than 120 characters
— setting the value to that first line (stripped) and the comments to the
remaining lines rejoined with newline (stripped) — and leaves every record
with a non-empty value (and every non-promotable record) unchanged. -/
theorem C5_spec :
    (∀ r : GRecord, r.value ≠ "" → backfill r = r) ∧
    (∀ (r : GRecord) (first : String) (rest : List String),
      r.value = "" → r.comments ≠ "" →
      splitLines r.comments = first :: rest → first.length < 120 →
      backfill r = ⟨r.key, pyStrip first, pyStrip (String.intercalate "\n" rest)⟩) ∧
    (∀ r : GRecord, backfill r ≠ r →
      r.value = "" ∧ r.comments ≠ "" ∧
      ((splitLines r.comments).headD "").length < 120) := by
  refine ⟨?_, ?_, ?_⟩
  · intro r hv
    unfold backfill
    rw [if_neg]
    simp [hv]
  · intro r first rest hv hc hsplit hlen
    unfold backfill
    rw [if_pos (by simp [hv, hc]), hsplit]
    simp [hlen]
  · intro r hne
    by_cases hv : r.value = ""
    · by_cases hc : r.comments = ""
      · exact absurd (by unfold backfill; rw [if_neg]; simp [hc]) hne
      · refine ⟨hv, hc, ?_⟩
        by_cases hlen : ((splitLines r.comments).headD "").length < 120
        · exact hlen
        · exfalso
          apply hne
          unfold backfill
          rw [if_pos (by simp [hv, hc])]
          rcases hsplit : splitLines r.comments with _ | ⟨first, rest⟩
          · rfl
          · have hnl : ¬first.length < 120 := fun hlt =>
              hlen (by simpa [hsplit] using hlt)
            simp [hnl]
    · exact absurd (by unfold backfill; rw [if_neg]; simp [hv]) hne

/-- C5 (witness): a record with empty value and a short two-line comment is
promoted; a record with non-empty value is untouched. -/
theorem C5_witness :
    backfill ⟨"K", "", "alpha\nbeta"⟩ =
      ⟨"K", pyStrip "alpha", pyStrip (String.intercalate "\n" ["beta"])⟩ ∧
    backfill ⟨"K", "v", "alpha\nbeta"⟩ = ⟨"K", "v", "alpha\nbeta"⟩ :=
  ⟨C5_spec.2.1 ⟨"K", "", "alpha\nbeta"⟩ "alpha" ["beta"] rfl (by decide)
      (by decide) (by decide),
   C5_spec.1 ⟨"K", "v", "alpha\nbeta"⟩ (by decide)⟩

/-- C6 (counterexample): the Assembler is not idempotent: on records keyed
`["Skill", "Skill 2", "Skill"]` (values non-empty, so backfill is inert) one
application renames the third record to `Skill 2`, which collides with the
pre-existing `Skill 2`, and a second application renames it again to
`Skill 2 2`. -/
theorem C6_counterexample :
    assemble (assemble [⟨"Skill", "v", ""⟩, ⟨"Skill 2", "v", ""⟩, ⟨"Skill", "v", ""⟩]) ≠
      assemble [⟨"Skill", "v", ""⟩, ⟨"Skill 2", "v", ""⟩, ⟨"Skill", "v", ""⟩] := by
  decide

/-- C6 (amended): the Assembler is idempotent exactly on the intended
outputs: whenever its result has pairwise-distinct keys and consists of
backfill fixed points, a second application returns it unchanged; in general
a renamed key may collide with a pre-existing key, so idempotence can fail. -/
theorem C6_spec (rs : List GRecord)
    (hnd : ((assemble rs).map GRecord.key).Nodup)
    (hfix : ∀ r ∈ assemble rs, backfill r = r) :
    assemble (assemble rs) = assemble rs :=
  assemble_fixed (assemble rs) hfix hnd

/-- C6 (witness): a single-record list is assembled idempotently. -/
theorem C6_witness :
    ((assemble [⟨"A", "v", ""⟩]).map GRecord.key).Nodup ∧
    assemble (assemble [⟨"A", "v", ""⟩]) = assemble [⟨"A", "v", ""⟩] :=
  ⟨by decide, C6_spec [⟨"A", "v", ""⟩] (by decide) (by decide)⟩
